import Mathlib

/-!
# Verification of the christmas-tree particle/gesture engine

Shallow embedding of the algorithmic core of the `christmas-tree` repository:

* the gesture classifier with hysteresis (`Interface`, `detect`),
* the exponential-smoothing position update (`useFrame` bodies in
  `GoldRibbons` / `GreenDust` / `Polaroid`),
* the spatial samplers (`getRandomSpherePoint`, the spiral formula of
  `GoldRibbons`, the cone-volume formula of `GreenDust`),
* the polaroid photo-placement computation (`Polaroid`'s `useMemo`),
* the construction of the particle groups (parallel position arrays).

Randomness (`Math.random()`) is modelled by an explicit stream of draws
passed as a function `ℕ → ℝ`; each loop iteration of the source consumes a
fixed number of draws, so draw `k` of particle `i` reads the stream at
`8 * i + k`, matching the sequential consumption of the source.
-/

namespace XmasTree

/-- The two control states of `TreeState` (src/unnamed/part_000, `enum TreeState`). -/
inductive TreeState where
  | FORMED
  | CHAOS
deriving DecidableEq, Repr

/-- A 3D point, as produced by the samplers (three.js `Vector3`). -/
@[ext]
structure Point3 where
  x : ℝ
  y : ℝ
  z : ℝ

/-! ## Constants (src/constants.ts, `CONFIG`) -/

def TREE_HEIGHT : ℝ := 11
def TREE_RADIUS : ℝ := 4.0
def CHAOS_RADIUS : ℝ := 35

/-! ## Gesture classifier (src/unnamed/part_001, `detect`, lines 182-193)

The source computes `ratio = distToTip / distToMcp` and then

```
if (ratio > 1.5) { onManualInteract(true);  }        // Chaos
else if (ratio < 1.35) { onManualInteract(false); }  // Formed
```

`onManualInteract(true)` sets the tree state to `CHAOS` and
`onManualInteract(false)` sets it to `FORMED` (src/unnamed/part_000,
`handleInteraction`).  We model the emission as an `Option TreeState`
(`none` = no call, state retained).  The ratio comparisons are exact
decimal comparisons, modelled over `ℚ`. -/

/-- The emission of one detected-hand sample with the given `ratio`. -/
def gestureEmit (ratio : ℚ) : Option TreeState :=
  if ratio > 1.5 then some TreeState.CHAOS
  else if ratio < 1.35 then some TreeState.FORMED
  else none

/-- The control state after processing a detected-hand sample: an emission
overwrites the state, no emission retains it. -/
def applyGesture (s : TreeState) (ratio : ℚ) : TreeState :=
  match gestureEmit ratio with
  | some t => t
  | none => s

/-! ## Exponential smoothing (the per-frame position update)

`currentPos += (target - currentPos) * alpha` — `GoldRibbons` uses
`alpha = 0.05`, `GreenDust` `0.04`, `Polaroid`'s position lerp `0.03`
(src/components/TreeSystem.tsx lines 180-182, 278-280, 368). -/

/-- One step of the update `pos += (target - pos) * alpha`. -/
noncomputable def lerpStep (alpha target pos : ℝ) : ℝ :=
  pos + (target - pos) * alpha

/-- The position after `n` steps of `lerpStep` towards a fixed `target`. -/
noncomputable def lerpIter (alpha target pos : ℝ) : ℕ → ℝ
  | 0 => pos
  | n + 1 => lerpStep alpha target (lerpIter alpha target pos n)

theorem lerpIter_sub (alpha target pos : ℝ) (n : ℕ) :
    target - lerpIter alpha target pos n = (target - pos) * (1 - alpha) ^ n := by
  induction n with
  | zero => simp [lerpIter]
  | succ n ih =>
      have h : target - lerpStep alpha target (lerpIter alpha target pos n) =
          (target - lerpIter alpha target pos n) * (1 - alpha) := by
        simp only [lerpStep]; ring
      rw [lerpIter, h, ih, pow_succ]
      ring

/-! ## Sphere-volume sampler (src/components/TreeSystem.tsx, lines 15-25)

```
const u = Math.random();  const v = Math.random();
const theta = 2 * Math.PI * u;
const phi = Math.acos(2 * v - 1);
const r = Math.cbrt(Math.random()) * radius;
const x = r * Math.sin(phi) * Math.cos(theta);
const y = r * Math.sin(phi) * Math.sin(theta);
const z = r * Math.cos(phi);
```

The three `Math.random()` draws become the explicit arguments `u v w`;
`Math.cbrt` on the draws in `[0,1)` is the real cube root `w ^ (1/3)`. -/

noncomputable def getRandomSpherePoint (radius u v w : ℝ) : Point3 :=
  let theta := 2 * Real.pi * u
  let phi := Real.arccos (2 * v - 1)
  let r := w ^ ((1 : ℝ) / 3) * radius
  { x := r * Real.sin phi * Real.cos theta
    y := r * Real.sin phi * Real.sin theta
    z := r * Real.cos phi }

/-! ## Spiral sampler (src/components/TreeSystem.tsx, `GoldRibbons`, lines 111-140)

```
const pct = i / count;
const y = pct * height - height / 2;
const r = (1 - pct) * maxRadius;
const theta = pct * (Math.PI * 2 * spirals);
const jitter = 0.6;
const jx = (Math.random() - 0.5) * jitter;
const jz = (Math.random() - 0.5) * jitter;
const jy = (Math.random() - 0.5) * jitter;
const tx = r * Math.cos(theta) + jx;
const ty = y + jy;
const tz = r * Math.sin(theta) + jz;
```

Generalised over `progress = pct`, `turns = spirals`, `baseRadius =
maxRadius`, `height` and `jitter`, with the three jitter draws `r1 r2 r3`
explicit (consumed in source order: jx, jz, jy). -/

noncomputable def spiralY (progress height : ℝ) : ℝ := progress * height - height / 2

noncomputable def spiralR (progress baseRadius : ℝ) : ℝ := (1 - progress) * baseRadius

noncomputable def spiralTheta (progress turns : ℝ) : ℝ :=
  progress * (Real.pi * 2 * turns)

noncomputable def sampleSpiral (progress turns baseRadius height jitter r1 r2 r3 : ℝ) :
    Point3 :=
  let y := spiralY progress height
  let r := spiralR progress baseRadius
  let theta := spiralTheta progress turns
  let jx := (r1 - 0.5) * jitter
  let jz := (r2 - 0.5) * jitter
  let jy := (r3 - 0.5) * jitter
  { x := r * Real.cos theta + jx
    y := y + jy
    z := r * Real.sin theta + jz }

/-! ## Cone-volume sampler (src/components/TreeSystem.tsx, `GreenDust`, lines 224-239)

```
const yNorm = Math.random();
const y = yNorm * height - height / 2;
const maxR = (1 - yNorm) * radiusBase;
const r = Math.sqrt(Math.random()) * maxR;
const theta = Math.random() * Math.PI * 2;
const swirlOffset = yNorm * Math.PI;
const tx = r * Math.cos(theta + swirlOffset);
const tz = r * Math.sin(theta + swirlOffset);
```

The three draws become explicit arguments `d1 d2 d3`. -/

noncomputable def sampleCone (height radiusBase d1 d2 d3 : ℝ) : Point3 :=
  let yNorm := d1
  let y := yNorm * height - height / 2
  let maxR := (1 - yNorm) * radiusBase
  let r := Real.sqrt d2 * maxR
  let theta := d3 * Real.pi * 2
  let swirlOffset := yNorm * Real.pi
  { x := r * Real.cos (theta + swirlOffset)
    y := y
    z := r * Real.sin (theta + swirlOffset) }

/-! ## Polaroid photo placement (src/components/TreeSystem.tsx, lines 320-360)

```
const h = CONFIG.TREE_HEIGHT;   const rBase = CONFIG.TREE_RADIUS;
const minY = -h / 2 + 1.5;      const maxY = h / 2 - 2.0;
const rangeY = maxY - minY;
let y = 0;
if (totalCount <= 1) { y = (minY + maxY) / 2; }
else { const ratio = index / (totalCount - 1); y = minY + ratio * rangeY; }
const coneProgress = (y + h/2) / h;
const coneRadius = (1 - coneProgress) * rBase;
const r = coneRadius + 1.5;
const angle = index * 2.39996;
const target = new Vector3(Math.cos(angle) * r, y, Math.sin(angle) * r);
```

All arithmetic is JS `number` arithmetic on the real-valued constants, so
`totalCount - 1` is real subtraction on the cast of the count. -/

noncomputable def polaroidMinY : ℝ := -TREE_HEIGHT / 2 + 1.5

noncomputable def polaroidMaxY : ℝ := TREE_HEIGHT / 2 - 2.0

noncomputable def polaroidYCoord (index totalCount : ℕ) : ℝ :=
  if totalCount ≤ 1 then (polaroidMinY + polaroidMaxY) / 2
  else
    polaroidMinY + ((index : ℝ) / ((totalCount : ℝ) - 1)) * (polaroidMaxY - polaroidMinY)

noncomputable def polaroidRadius (index totalCount : ℕ) : ℝ :=
  let y := polaroidYCoord index totalCount
  let coneProgress := (y + TREE_HEIGHT / 2) / TREE_HEIGHT
  let coneRadius := (1 - coneProgress) * TREE_RADIUS
  coneRadius + 1.5

noncomputable def GOLDEN_ANGLE : ℝ := 2.39996

/-- `angle = index * 2.39996` (line 342): a function of the index alone. -/
noncomputable def polaroidAngle (index : ℕ) : ℝ := (index : ℝ) * GOLDEN_ANGLE

noncomputable def polaroidTarget (index totalCount : ℕ) : Point3 :=
  let y := polaroidYCoord index totalCount
  let r := polaroidRadius index totalCount
  let angle := polaroidAngle index
  { x := Real.cos angle * r, y := y, z := Real.sin angle * r }

/-- The orientation produced by `lookAt(0, y, 0)` followed by `rotateY(π)`
(lines 351-355): a pure yaw that makes the frame face the horizontal
direction pointing from the vertical axis towards the target, i.e. the
outward direction `(target.x, 0, target.z)`.  We represent the resulting
orientation by this facing direction. -/
noncomputable def outwardFacing (target : Point3) : Point3 :=
  { x := target.x, y := 0, z := target.z }

/-- The full `useMemo` computation of `Polaroid` (lines 320-360): target
position, outward orientation, and a chaos position drawn from the sphere
sampler at radius `CHAOS_RADIUS * 0.8` using the random stream. -/
structure PolaroidPlacement where
  targetPos : Point3
  targetRotation : Point3
  chaosPos : Point3

noncomputable def polaroidPlacement (stream : ℕ → ℝ) (index totalCount : ℕ) :
    PolaroidPlacement :=
  let target := polaroidTarget index totalCount
  { targetPos := target
    targetRotation := outwardFacing target
    chaosPos := getRandomSpherePoint (CHAOS_RADIUS * 0.8) (stream 0) (stream 1) (stream 2) }

/-! ## Particle group construction (src/components/TreeSystem.tsx,
`GoldRibbons` lines 104-163 and `GreenDust` lines 214-262)

Each group builds flat `Float32Array`s of length `count * 3` for the
current, target and chaos positions; the loop body writes the chaos point
into both `chaos` and `pos` ("Init" comment, lines 148-151 / 247-250).
Flat arrays are modelled as `List ℝ`, produced by flattening one `Point3`
per particle.  Each loop iteration draws 8 uniforms (ribbon: 3 jitter, 3
sphere, 1 color, 1 size; dust: yNorm, disc radius, theta, 3 sphere, 1
color, 1 size), so particle `i`'s draw `k` reads `stream (8 * i + k)`.
Colors and sizes are not needed by any claim and are omitted. -/

structure GroupState where
  pos : List ℝ
  target : List ℝ
  chaos : List ℝ

/-- Flatten one point per particle index into the `[x, y, z, x, y, z, ...]`
layout of the source's `Float32Array(count * 3)`. -/
def flatten3 (count : ℕ) (f : ℕ → Point3) : List ℝ :=
  (List.range count).flatMap fun i => [(f i).x, (f i).y, (f i).z]

/-- Target of ribbon particle `i` (lines 115-140): the spiral with
`spirals = 5.5`, `maxRadius = TREE_RADIUS + 0.5`, `height = TREE_HEIGHT`,
`jitter = 0.6`. -/
noncomputable def ribbonTarget (stream : ℕ → ℝ) (count i : ℕ) : Point3 :=
  sampleSpiral ((i : ℝ) / (count : ℝ)) 5.5 (TREE_RADIUS + 0.5) TREE_HEIGHT 0.6
    (stream (8 * i)) (stream (8 * i + 1)) (stream (8 * i + 2))

/-- Chaos point of ribbon particle `i` (line 143):
`getRandomSpherePoint(CONFIG.CHAOS_RADIUS)`. -/
noncomputable def ribbonChaos (stream : ℕ → ℝ) (i : ℕ) : Point3 :=
  getRandomSpherePoint CHAOS_RADIUS (stream (8 * i + 3)) (stream (8 * i + 4))
    (stream (8 * i + 5))

/-- The arrays built by `GoldRibbons`' `useMemo`; `pos` is initialised from
the same chaos point that fills `chaos` (lines 144-151). -/
noncomputable def ribbonInit (stream : ℕ → ℝ) (count : ℕ) : GroupState :=
  { pos := flatten3 count (ribbonChaos stream)
    target := flatten3 count (ribbonTarget stream count)
    chaos := flatten3 count (ribbonChaos stream) }

/-- Target of dust particle `i` (lines 224-239): the cone-volume point. -/
noncomputable def dustTarget (stream : ℕ → ℝ) (i : ℕ) : Point3 :=
  sampleCone TREE_HEIGHT TREE_RADIUS (stream (8 * i)) (stream (8 * i + 1))
    (stream (8 * i + 2))

/-- Chaos point of dust particle `i` (line 242):
`getRandomSpherePoint(CONFIG.CHAOS_RADIUS * 1.2)`. -/
noncomputable def dustChaos (stream : ℕ → ℝ) (i : ℕ) : Point3 :=
  getRandomSpherePoint (CHAOS_RADIUS * 1.2) (stream (8 * i + 3)) (stream (8 * i + 4))
    (stream (8 * i + 5))

/-- The arrays built by `GreenDust`'s `useMemo` (lines 214-262). -/
noncomputable def dustInit (stream : ℕ → ℝ) (count : ℕ) : GroupState :=
  { pos := flatten3 count (dustChaos stream)
    target := flatten3 count (dustTarget stream)
    chaos := flatten3 count (dustChaos stream) }

/-! ## Per-frame animation step (`useFrame` bodies, lines 165-185 / 264-283)

For each array slot the active target is chosen by `isFormed` and the
current position advances by `(t - current) * alpha`; `target` and `chaos`
are only read. -/

/-- One `useFrame` tick over the whole group. -/
noncomputable def animStep (alpha : ℝ) (isFormed : Bool) (st : GroupState) : GroupState :=
  { st with
    pos := List.zipWith (fun p t => p + (t - p) * alpha) st.pos
      (if isFormed then st.target else st.chaos) }

/-- The group after `n` ticks, the control state at tick `k` given by
`formedSeq k`. -/
noncomputable def animate (alpha : ℝ) (formedSeq : ℕ → Bool) (st : GroupState) :
    ℕ → GroupState
  | 0 => st
  | n + 1 => animStep alpha (formedSeq n) (animate alpha formedSeq st n)

theorem flatten3_length (count : ℕ) (f : ℕ → Point3) :
    (flatten3 count f).length = 3 * count := by
  induction count with
  | zero => simp [flatten3]
  | succ n ih =>
      simp only [flatten3, List.range_succ, List.flatMap_append] at *
      simp [ih]
      ring

theorem animStep_target (alpha : ℝ) (b : Bool) (st : GroupState) :
    (animStep alpha b st).target = st.target := rfl

theorem animStep_chaos (alpha : ℝ) (b : Bool) (st : GroupState) :
    (animStep alpha b st).chaos = st.chaos := rfl

/-! ## Claims -/

/-- C1: for every detected-hand sample, the classifier emits `CHAOS` iff the
ratio is strictly greater than 1.50, emits `FORMED` iff the ratio is strictly
less than 1.35, and emits nothing (the control state is retained) for any
ratio inside the band `[1.35, 1.50]`; the ratio sequence
`[1.6, 1.45, 1.40, 1.2]` emits `CHAOS`, nothing, nothing, `FORMED`. -/
theorem gesture_hysteresis_C1 (r : ℚ) :
    (gestureEmit r = some TreeState.CHAOS ↔ 1.5 < r) ∧
    (gestureEmit r = some TreeState.FORMED ↔ r < 1.35) ∧
    (gestureEmit r = none ↔ 1.35 ≤ r ∧ r ≤ 1.5) ∧
    (∀ s : TreeState, 1.35 ≤ r → r ≤ 1.5 → applyGesture s r = s) ∧
    gestureEmit 1.6 = some TreeState.CHAOS ∧
    gestureEmit 1.45 = none ∧
    gestureEmit 1.4 = none ∧
    gestureEmit 1.2 = some TreeState.FORMED := by
  refine ⟨?_, ?_, ?_, ?_, by norm_num [gestureEmit], by norm_num [gestureEmit],
    by norm_num [gestureEmit], by norm_num [gestureEmit]⟩
  · unfold gestureEmit
    split_ifs with h1 h2 <;> simp_all
  · unfold gestureEmit
    split_ifs with h1 h2 <;> simp_all
    linarith
  · unfold gestureEmit
    split_ifs with h1 h2 <;> simp_all
  · intro s hlo hhi
    unfold applyGesture gestureEmit
    split_ifs with h1 h2
    · linarith
    · linarith
    · rfl

/-- Witness for C1 at the in-band ratio `1.4`: nothing is emitted and the
`CHAOS` state is retained. -/
theorem gesture_hysteresis_C1_witness :
    gestureEmit 1.4 = none ∧ applyGesture TreeState.CHAOS 1.4 = TreeState.CHAOS :=
  ⟨((gesture_hysteresis_C1 1.4).2.2.1).mpr (by norm_num),
   (gesture_hysteresis_C1 1.4).2.2.2.1 TreeState.CHAOS (by norm_num) (by norm_num)⟩

/-- C2 counterexample: the claim quantifies over *every* starting position,
but starting exactly at the target the update is stationary: after one step
the position still equals the target (so the target is reached in finitely
many steps) and the distance sequence is `0, 0, ...`, not strictly
decreasing. -/
theorem lerp_monotone_C2_counterexample :
    lerpIter (1/2 : ℝ) 1 1 1 = 1 ∧
    ¬ |(1 : ℝ) - lerpIter (1/2 : ℝ) 1 1 1| < |(1 : ℝ) - lerpIter (1/2 : ℝ) 1 1 0| := by
  have h1 : lerpIter (1/2 : ℝ) 1 1 1 = 1 := by
    simp [lerpIter, lerpStep]
  have h0 : lerpIter (1/2 : ℝ) 1 1 0 = 1 := by
    simp [lerpIter]
  refine ⟨h1, ?_⟩
  rw [h1, h0]
  simp

/-- C2 (amended): for every fixed target, every `alpha ∈ (0,1)` and every
start *different from the target*, iterating `pos += (target - pos) * alpha`
gives strictly decreasing distances `|target - pos|`, the sign of
`target - pos` never flips, and the position never equals the target after
any finite number of steps. -/
theorem lerp_monotone_C2 (alpha target pos : ℝ) (h0 : 0 < alpha) (h1 : alpha < 1)
    (hne : pos ≠ target) (n : ℕ) :
    |target - lerpIter alpha target pos (n + 1)| < |target - lerpIter alpha target pos n| ∧
    (0 < target - pos → 0 < target - lerpIter alpha target pos n) ∧
    (target - pos < 0 → target - lerpIter alpha target pos n < 0) ∧
    lerpIter alpha target pos n ≠ target := by
  have hpow : ∀ m : ℕ, (0 : ℝ) < (1 - alpha) ^ m := fun m => pow_pos (by linarith) m
  have hd : target - pos ≠ 0 := sub_ne_zero.mpr (Ne.symm hne)
  have habs : (0 : ℝ) < |target - pos| := abs_pos.mpr hd
  refine ⟨?_, ?_, ?_, ?_⟩
  · rw [lerpIter_sub, lerpIter_sub, abs_mul, abs_mul,
      abs_of_pos (hpow (n + 1)), abs_of_pos (hpow n)]
    have hstep : (1 - alpha) ^ (n + 1) < (1 - alpha) ^ n := by
      rw [pow_succ]
      nlinarith [hpow n]
    exact mul_lt_mul_of_pos_left hstep habs
  · intro hp
    rw [lerpIter_sub]
    exact mul_pos hp (hpow n)
  · intro hp
    rw [lerpIter_sub]
    exact mul_neg_of_neg_of_pos hp (hpow n)
  · intro hreach
    have : target - lerpIter alpha target pos n = 0 := by rw [hreach]; ring
    rw [lerpIter_sub] at this
    exact mul_ne_zero hd (ne_of_gt (hpow n)) this

/-- Witness for C2 at `alpha = 1/2`, `target = 1`, `pos = 0`, `n = 0`. -/
theorem lerp_monotone_C2_witness :
    (0 : ℝ) < 1/2 ∧ (1/2 : ℝ) < 1 ∧ (0 : ℝ) ≠ 1 ∧
    (|(1 : ℝ) - lerpIter (1/2) 1 0 1| < |(1 : ℝ) - lerpIter (1/2) 1 0 0| ∧
      (0 < (1 : ℝ) - 0 → 0 < 1 - lerpIter (1/2) 1 0 0) ∧
      ((1 : ℝ) - 0 < 0 → (1 : ℝ) - lerpIter (1/2) 1 0 0 < 0) ∧
      lerpIter (1/2 : ℝ) 1 0 0 ≠ 1) :=
  ⟨by norm_num, by norm_num, by norm_num,
    lerp_monotone_C2 (1/2) 1 0 (by norm_num) (by norm_num) (by norm_num) 0⟩

/-- For counts `≥ 2`, index 0 sits at `ratio = 0`, i.e. at `minY`. -/
theorem polaroidYCoord_zero (n : ℕ) (hn : 2 ≤ n) :
    polaroidYCoord 0 n = polaroidMinY := by
  unfold polaroidYCoord
  rw [if_neg (by omega)]
  simp

/-- The target position depends on the count only through the `y`
coordinate: equal `y` forces equal radius and hence an equal point. -/
theorem polaroidTarget_congr (i m n : ℕ)
    (h : polaroidYCoord i m = polaroidYCoord i n) :
    polaroidTarget i m = polaroidTarget i n := by
  simp only [polaroidTarget, polaroidRadius, h]

/-- Shared helper: the first photo's target position is the same for any two
counts that are both at least 2. -/
theorem polaroidTarget_zero_stable (m n : ℕ) (hm : 2 ≤ m) (hn : 2 ≤ n) :
    polaroidTarget 0 m = polaroidTarget 0 n :=
  polaroidTarget_congr 0 m n (by rw [polaroidYCoord_zero m hm, polaroidYCoord_zero n hn])

/-- C3 counterexample: the claim says a change of `totalCount` alone moves
*every* existing frame, but frame 0 has the same target position for
`totalCount = 2` and `totalCount = 3` (its height ratio is `0/(count-1) = 0`
and its angle `0 * 2.39996` in both cases). -/
theorem polaroid_relayout_C3_counterexample :
    polaroidTarget 0 2 = polaroidTarget 0 3 :=
  polaroidTarget_zero_stable 2 3 (by norm_num) (by norm_num)

/-- C3 (amended): changing only `totalCount` changes `targetPos` for every
index valid under both counts, *except* index 0 when both counts are at
least 2 (index 0's position is then unchanged, since both its height ratio
and its angle are independent of the count). -/
theorem polaroid_relayout_C3 (i m n : ℕ) (him : i < m) (hin : i < n) (hmn : m ≠ n)
    (hnot : ¬(i = 0 ∧ 2 ≤ m ∧ 2 ≤ n)) :
    polaroidTarget i m ≠ polaroidTarget i n := by
  intro heq
  have hy : polaroidYCoord i m = polaroidYCoord i n := congrArg Point3.y heq
  rcases Nat.eq_zero_or_pos i with hi0 | hipos
  · subst hi0
    have hone : m = 1 ∨ n = 1 := by omega
    rcases hone with h1 | h1
    · subst h1
      have hn2 : 2 ≤ n := by omega
      rw [polaroidYCoord_zero n hn2] at hy
      unfold polaroidYCoord polaroidMinY polaroidMaxY TREE_HEIGHT at hy
      norm_num at hy
    · subst h1
      have hm2 : 2 ≤ m := by omega
      rw [polaroidYCoord_zero m hm2] at hy
      unfold polaroidYCoord polaroidMinY polaroidMaxY TREE_HEIGHT at hy
      norm_num at hy
  · have hm2 : 2 ≤ m := by omega
    have hn2 : 2 ≤ n := by omega
    have hmR : (2 : ℝ) ≤ (m : ℝ) := by exact_mod_cast hm2
    have hnR : (2 : ℝ) ≤ (n : ℝ) := by exact_mod_cast hn2
    have hm1 : ((m : ℝ) - 1) ≠ 0 := by intro h; linarith
    have hn1 : ((n : ℝ) - 1) ≠ 0 := by intro h; linarith
    have hiR : ((i : ℝ)) ≠ 0 := Nat.cast_ne_zero.mpr (by omega)
    unfold polaroidYCoord at hy
    rw [if_neg (by omega), if_neg (by omega)] at hy
    have hRne : (polaroidMaxY - polaroidMinY) ≠ 0 := by
      unfold polaroidMinY polaroidMaxY TREE_HEIGHT
      norm_num
    have hab : (i : ℝ) / ((m : ℝ) - 1) * (polaroidMaxY - polaroidMinY) =
        (i : ℝ) / ((n : ℝ) - 1) * (polaroidMaxY - polaroidMinY) := by linarith
    have hab2 := mul_right_cancel₀ hRne hab
    rw [div_eq_div_iff hm1 hn1] at hab2
    have hcast : (n : ℝ) = (m : ℝ) := by
      have := mul_left_cancel₀ hiR hab2
      linarith
    exact hmn (by exact_mod_cast hcast.symm)

/-- Witness for C3 (amended) at `i = 1`, counts 2 and 3: the second frame
moves when a third photo is added. -/
theorem polaroid_relayout_C3_witness :
    (1 : ℕ) < 2 ∧ (1 : ℕ) < 3 ∧ (2 : ℕ) ≠ 3 ∧ ¬((1 : ℕ) = 0 ∧ 2 ≤ 2 ∧ 2 ≤ 3) ∧
    polaroidTarget 1 2 ≠ polaroidTarget 1 3 :=
  ⟨by decide, by decide, by decide, by decide,
    polaroid_relayout_C3 1 2 3 (by decide) (by decide) (by decide) (by decide)⟩

/-- C4: the polaroid placement is a pure function of `(index, totalCount)`:
the target position and target orientation do not depend on the random
stream (which feeds only the chaos position), so two evaluations with
identical `index` and `totalCount` agree on both. -/
theorem polaroid_determinism_C4 (s1 s2 : ℕ → ℝ) (index totalCount : ℕ) :
    (polaroidPlacement s1 index totalCount).targetPos =
      (polaroidPlacement s2 index totalCount).targetPos ∧
    (polaroidPlacement s1 index totalCount).targetRotation =
      (polaroidPlacement s2 index totalCount).targetRotation :=
  ⟨rfl, rfl⟩

/-- C10 (implicit): the azimuthal angle `index * 2.39996` is a function of
the index alone (`polaroidAngle` takes no count argument), and for index 0
any two counts that are both ≥ 2 give the identical target position — adding
photos beyond the second never moves the first frame. -/
theorem first_photo_stable_C10 (m n : ℕ) (hm : 2 ≤ m) (hn : 2 ≤ n) :
    polaroidAngle 0 = 0 ∧ polaroidTarget 0 m = polaroidTarget 0 n :=
  ⟨by simp [polaroidAngle], polaroidTarget_zero_stable m n hm hn⟩

/-- Witness for C10 at counts 2 and 3. -/
theorem first_photo_stable_C10_witness :
    (2 : ℕ) ≤ 2 ∧ (2 : ℕ) ≤ 3 ∧
    (polaroidAngle 0 = 0 ∧ polaroidTarget 0 2 = polaroidTarget 0 3) :=
  ⟨by decide, by decide, first_photo_stable_C10 2 3 (by decide) (by decide)⟩

/-- C5: for draws `u, v, w` (with `w ∈ [0,1)` it suffices that `w ≥ 0`),
the sphere sampler computes `theta = 2π·u`, `phi = acos(2v − 1)`,
`r = cbrt(w)·radius` and returns
`(r·sinφ·cosθ, r·sinφ·sinθ, r·cosφ)`; consequently `r³ = w·radius³`, so
`r³` is the image of the uniform draw `w` under scaling by `radius³`. -/
theorem sphere_sampler_C5 (radius u v w : ℝ) (hw : 0 ≤ w) :
    getRandomSpherePoint radius u v w =
      { x := (w ^ ((1 : ℝ) / 3) * radius) * Real.sin (Real.arccos (2 * v - 1)) *
          Real.cos (2 * Real.pi * u)
        y := (w ^ ((1 : ℝ) / 3) * radius) * Real.sin (Real.arccos (2 * v - 1)) *
          Real.sin (2 * Real.pi * u)
        z := (w ^ ((1 : ℝ) / 3) * radius) * Real.cos (Real.arccos (2 * v - 1)) } ∧
    (w ^ ((1 : ℝ) / 3) * radius) ^ 3 = w * radius ^ 3 := by
  refine ⟨rfl, ?_⟩
  have h3 : (w ^ ((1 : ℝ) / 3)) ^ (3 : ℕ) = w := by
    rw [← Real.rpow_natCast (w ^ ((1 : ℝ) / 3)) 3, ← Real.rpow_mul hw]
    norm_num
  rw [mul_pow, h3]

/-- Witness for C5 at `radius = 1`, `u = v = w = 0`. -/
theorem sphere_sampler_C5_witness :
    (0 : ℝ) ≤ 0 ∧ ((0 : ℝ) ^ ((1 : ℝ) / 3) * 1) ^ 3 = 0 * 1 ^ 3 :=
  ⟨le_rfl, (sphere_sampler_C5 1 0 0 0 le_rfl).2⟩

/-- C6: the spiral placement at `progress = 0` with `turns = 5.5`,
`baseRadius = 4.5`, `height = 11` and `jitter = 0` yields exactly
`y = -5.5`, `r = 4.5`, `theta = 0`, i.e. the point `(4.5, -5.5, 0)`,
whatever the (unused) jitter draws are. -/
theorem spiral_sample_C6 (r1 r2 r3 : ℝ) :
    spiralY 0 11 = -5.5 ∧ spiralR 0 4.5 = 4.5 ∧ spiralTheta 0 5.5 = 0 ∧
    sampleSpiral 0 5.5 4.5 11 0 r1 r2 r3 = ⟨4.5, -5.5, 0⟩ := by
  refine ⟨by norm_num [spiralY], by norm_num [spiralR], by norm_num [spiralTheta], ?_⟩
  unfold sampleSpiral spiralY spiralR spiralTheta
  ext
  · simp
  · simp
    norm_num
  · simp

/-- C7: with `index = 0` and `totalCount = 1`, the single frame is placed at
the vertical midpoint of the band `[minY, maxY]`, at azimuthal angle 0, so
its target position is `(r, y_mid, 0)` with `x = r > 0` (positive-x side). -/
theorem photo_placement_C7 :
    polaroidYCoord 0 1 = (polaroidMinY + polaroidMaxY) / 2 ∧
    polaroidAngle 0 = 0 ∧
    polaroidTarget 0 1 =
      ⟨polaroidRadius 0 1, (polaroidMinY + polaroidMaxY) / 2, 0⟩ ∧
    0 < (polaroidTarget 0 1).x := by
  have hy : polaroidYCoord 0 1 = (polaroidMinY + polaroidMaxY) / 2 := by
    unfold polaroidYCoord
    norm_num
  have hang : polaroidAngle 0 = 0 := by simp [polaroidAngle]
  have hr : polaroidRadius 0 1 = 79 / 22 := by
    unfold polaroidRadius
    rw [hy]
    unfold polaroidMinY polaroidMaxY TREE_HEIGHT TREE_RADIUS
    norm_num
  refine ⟨hy, hang, ?_, ?_⟩
  · unfold polaroidTarget
    rw [hang, hy]
    ext <;> simp
  · show 0 < Real.cos (polaroidAngle 0) * polaroidRadius 0 1
    rw [hang, hr]
    simp

/-- The representative of `x` modulo `2π` in `[0, 2π)`. -/
noncomputable def angleMod2Pi (x : ℝ) : ℝ :=
  x - 2 * Real.pi * ⌊x / (2 * Real.pi)⌋

/-- C8: no two photo indices ever share an azimuthal angle modulo `2π`: the
code's `GOLDEN_ANGLE = 2.39996` is rational while `2π` is irrational, so
`i * 2.39996` and `j * 2.39996` can only agree modulo `2π` when `i = j`.
This holds for *all* pairs, hence for every `totalCount` bound. -/
theorem golden_angle_C8 (i j : ℕ) (hij : i ≠ j) :
    angleMod2Pi (polaroidAngle i) ≠ angleMod2Pi (polaroidAngle j) := by
  intro h
  have hk : ((i : ℝ) - (j : ℝ)) * GOLDEN_ANGLE =
      2 * Real.pi * ((⌊polaroidAngle i / (2 * Real.pi)⌋ : ℤ) -
        (⌊polaroidAngle j / (2 * Real.pi)⌋ : ℤ)) := by
    unfold angleMod2Pi at h
    unfold polaroidAngle at h ⊢
    linarith
  set k : ℤ := ⌊polaroidAngle i / (2 * Real.pi)⌋ - ⌊polaroidAngle j / (2 * Real.pi)⌋ with hkdef
  rw [← Int.cast_sub, ← hkdef] at hk
  have hgane : GOLDEN_ANGLE ≠ 0 := by unfold GOLDEN_ANGLE; norm_num
  have hijR : ((i : ℝ) - (j : ℝ)) ≠ 0 := by
    intro h0
    exact hij (by exact_mod_cast sub_eq_zero.mp h0)
  have hk0 : (k : ℝ) ≠ 0 := by
    intro h0
    rw [h0, mul_zero] at hk
    exact mul_ne_zero hijR hgane hk
  have hpi : Real.pi = ((((i : ℚ) - (j : ℚ)) * (59999 / 25000) / (2 * (k : ℚ))) : ℚ) := by
    have hga : GOLDEN_ANGLE = (59999 : ℝ) / 25000 := by unfold GOLDEN_ANGLE; norm_num
    rw [hga] at hk
    push_cast
    have h2k : (2 : ℝ) * (k : ℝ) ≠ 0 := by
      intro h0
      apply hk0
      linarith
    field_simp
    linarith [hk]
  exact irrational_pi.ne_rat _ hpi

/-- Witness for C8 at the pair `(0, 1)`. -/
theorem golden_angle_C8_witness :
    (0 : ℕ) ≠ 1 ∧ angleMod2Pi (polaroidAngle 0) ≠ angleMod2Pi (polaroidAngle 1) :=
  ⟨by decide, golden_angle_C8 0 1 (by decide)⟩

theorem animate_target (alpha : ℝ) (fseq : ℕ → Bool) (st : GroupState) (n : ℕ) :
    (animate alpha fseq st n).target = st.target := by
  induction n with
  | zero => rfl
  | succ n ih => rw [animate, animStep_target, ih]

theorem animate_chaos (alpha : ℝ) (fseq : ℕ → Bool) (st : GroupState) (n : ℕ) :
    (animate alpha fseq st n).chaos = st.chaos := by
  induction n with
  | zero => rfl
  | succ n ih => rw [animate, animStep_chaos, ih]

theorem animate_pos_length (alpha : ℝ) (fseq : ℕ → Bool) (st : GroupState) (L : ℕ)
    (hp : st.pos.length = L) (ht : st.target.length = L) (hc : st.chaos.length = L)
    (n : ℕ) : (animate alpha fseq st n).pos.length = L := by
  induction n with
  | zero => exact hp
  | succ n ih =>
      rw [animate]
      show (List.zipWith _ _ _).length = L
      rw [List.length_zipWith, ih, animate_target, animate_chaos]
      cases fseq n <;> simp [ht, hc]

/-- C9: at construction of each particle group (ribbon and dust alike) the
current-position array is initialised equal to the chaos array; the current,
target and chaos arrays all have length `3 * count`; and after any number of
animation ticks the current array still has length `3 * count` while the
target and chaos arrays are unchanged (the per-frame update only rewrites
`currentPos`). -/
theorem group_invariants_C9 (stream : ℕ → ℝ) (count : ℕ) (fseq : ℕ → Bool) (n : ℕ) :
    (ribbonInit stream count).pos = (ribbonInit stream count).chaos ∧
    (dustInit stream count).pos = (dustInit stream count).chaos ∧
    (ribbonInit stream count).pos.length = 3 * count ∧
    (ribbonInit stream count).target.length = 3 * count ∧
    (ribbonInit stream count).chaos.length = 3 * count ∧
    (dustInit stream count).pos.length = 3 * count ∧
    (dustInit stream count).target.length = 3 * count ∧
    (dustInit stream count).chaos.length = 3 * count ∧
    (animate 0.05 fseq (ribbonInit stream count) n).pos.length = 3 * count ∧
    (animate 0.05 fseq (ribbonInit stream count) n).target =
      (ribbonInit stream count).target ∧
    (animate 0.05 fseq (ribbonInit stream count) n).chaos =
      (ribbonInit stream count).chaos ∧
    (animate 0.04 fseq (dustInit stream count) n).pos.length = 3 * count ∧
    (animate 0.04 fseq (dustInit stream count) n).target =
      (dustInit stream count).target ∧
    (animate 0.04 fseq (dustInit stream count) n).chaos =
      (dustInit stream count).chaos := by
  have hr : ∀ f : ℕ → Point3, (flatten3 count f).length = 3 * count :=
    fun f => flatten3_length count f
  exact ⟨rfl, rfl, hr _, hr _, hr _, hr _, hr _, hr _,
    animate_pos_length _ _ _ _ (hr _) (hr _) (hr _) n,
    animate_target _ _ _ n, animate_chaos _ _ _ n,
    animate_pos_length _ _ _ _ (hr _) (hr _) (hr _) n,
    animate_target _ _ _ n, animate_chaos _ _ _ n⟩

end XmasTree
